import Mathlib

/-!
Shallow embedding of the realtime-transcript-linux streaming transcription
pipeline, and proofs checking its natural-language specification against the
code.

Embedded components:
* `AudioCapture` (src/audio_utils.py): voice-activity detection
  (`_calculate_volume`, silence threshold) and the phrase segmenter loop in
  `capture_streaming_audio`.
* `AssemblyAITranscriber._create_event_handlers.on_turn`
  (src/assemblyai_transcriber.py).
* `ElevenLabsTranscriber.transcribe_audio`, `_is_mostly_silent` and
  `_transcribe_with_retry` (src/elevenlabs_transcriber.py).
* `HybridVoiceTranscriber.transcribe` and `_handle_transcription_result`
  (src/voice_hybrid.py).

Modelling conventions: int16 samples are `ℤ`, float samples and volumes are
`ℚ`; the source compares `volume > threshold` where `volume = sqrt(meanSq)`,
which we embed as the equivalent squared comparison `meanSq > threshold²`
(both sides nonnegative; the bridge to `Real.sqrt` is proved below).
Side effects (callbacks, `time.sleep`, network requests) are embedded as
explicit event lists in the order the code performs them.
-/

namespace RealtimeTranscript

/-- A raw audio frame: the int16 samples obtained from one
`stream.read(chunk_size)` (decoded as numpy `int16`, audio_utils.py:191). -/
abbrev Frame := List ℤ

/-- Constructor-time configuration of `AudioCapture.__init__`
(audio_utils.py:12-22) with the source defaults. `silence_threshold` is the
Python int `50`. -/
structure AudioConfig where
  sampleRate : ℕ := 16000
  chunkSize : ℕ := 1024
  silenceThreshold : ℤ := 50
deriving DecidableEq, Repr

/-- Frame count `int(sample_rate / chunk_size * (num / den))`: Python computes this in
float arithmetic; for every ratio the program uses (1.5 = 3/2, 4, 2, 1, and
integer max durations against sampleRate/chunkSize = 15.625) the float
values are exact, so truncation toward zero of a nonnegative value equals
this natural floor division. `framesOf_eq_ratFloor` checks the equation
against the rational-arithmetic reading for the default configuration. -/
def framesOf (cfg : AudioConfig) (num den : ℕ) : ℕ :=
  cfg.sampleRate * num / (cfg.chunkSize * den)

/-- Field `self.short_pause_frames` (audio_utils.py:20): 1.5 s phrase boundary. -/
def shortPauseFrames (cfg : AudioConfig) : ℕ := framesOf cfg 3 2

/-- Field `self.long_pause_frames` (audio_utils.py:21): 4 s end of recording. -/
def longPauseFrames (cfg : AudioConfig) : ℕ := framesOf cfg 4 1

/-- Field `self.min_phrase_frames` (audio_utils.py:22): minimum 2 s for a phrase. -/
def minPhraseFrames (cfg : AudioConfig) : ℕ := framesOf cfg 2 1

/-- Local `final_min_frames` (audio_utils.py:151): 1.0 s minimum for the final
flush after the capture loop. -/
def finalMinFrames (cfg : AudioConfig) : ℕ := framesOf cfg 1 1

/-- Loop bound `max_frames` (audio_utils.py:58) for a given integral `max_duration`. -/
def maxFramesOf (cfg : AudioConfig) (maxDuration : ℕ) : ℕ :=
  framesOf cfg maxDuration 1

/-- The default `AudioCapture()` configuration used throughout the program. -/
def audioConfig : AudioConfig := {}

/-- Sum of squared int16 samples of a frame (`np.sum` of
`audio_array ** 2`); helper for the RMS computed at audio_utils.py:193. -/
def sumSq (xs : List ℤ) : ℤ := (xs.map (fun x => x * x)).sum

/-- Mean of the squared samples of a frame, `0` for an empty frame: the square
of `AudioCapture._calculate_volume` (audio_utils.py:188-197), which returns
`sqrt(mean(int16_samples ** 2))` and `0` on an empty frame. -/
def calculate_volume_sq (xs : List ℤ) : ℚ :=
  if xs = [] then 0
  else ((xs.map (fun x : ℤ => ((x : ℚ)) ^ 2)).sum) / (xs.length : ℚ)

/-- The voice-activity classification at audio_utils.py:96:
`volume > self.silence_threshold` with `volume = sqrt(mean(sample^2))`.
Since volume and threshold are nonnegative this is equivalent to
`mean(sample^2) > threshold^2`, i.e. `sum(sample^2) > threshold^2 * length`
(an empty frame has volume 0 and is silence). The equivalence with the
`Real.sqrt` reading is proved in `vad_rms_classification`. -/
def isSpeech (cfg : AudioConfig) (f : Frame) : Bool :=
  decide (cfg.silenceThreshold * cfg.silenceThreshold * (f.length : ℤ) < sumSq f)

/-- Mutable state of the capture loop in `capture_streaming_audio`
(audio_utils.py:55-59): `all_frames`, `phrase_frames`, `silence_frames`,
`recording_started`; `emits` records the arguments passed to `callback`
in chronological order (the callback is modelled as always present).
`phrase_start_idx` is omitted: it is written but never read outside the
assignments themselves. -/
structure SegState where
  allFrames : List Frame := []
  phraseFrames : List Frame := []
  silenceFrames : ℕ := 0
  recordingStarted : Bool := false
  emits : List (List Frame) := []
deriving DecidableEq, Repr

/-- Why the capture loop stopped iterating. `externalStop` covers both the
in-process stop flag (audio_utils.py:63) and the stop file
(audio_utils.py:74), whose two branches are textually identical. -/
inductive ExitReason
  | externalStop
  | longPause
  | maxDuration
deriving DecidableEq, Repr

/-- How one iteration of the capture loop ends: `next` continues with the
updated state, `halt` leaves the loop (a `break` or the stop branches). -/
inductive StepResult
  | next (s : SegState)
  | halt (s : SegState) (r : ExitReason)
deriving DecidableEq, Repr

/-- The state carried out of a step, whether the loop continues or halts. -/
def StepResult.state : StepResult → SegState
  | .next s => s
  | .halt s _ => s

/-- One iteration of the `for frame_count in range(max_frames)` body
(audio_utils.py:61-135). `stopSignal` is the disjunction of the in-process
stop flag and the stop-file check (their bodies are identical); `f` is the
frame read by `stream.read` for this iteration (read errors are not
modelled). The callback is modelled as present. -/
def captureStep (cfg : AudioConfig) (stopSignal : Bool) (f : Frame) (s : SegState) :
    StepResult :=
  if stopSignal then
    -- lines 63-71 / 74-82: flush any pending phrase, then break
    if s.phraseFrames ≠ [] ∧ s.recordingStarted = true then
      .halt { s with emits := s.emits ++ [s.phraseFrames], phraseFrames := [] }
        .externalStop
    else
      .halt s .externalStop
  else
    -- lines 90-91: the frame is appended to both buffers before VAD
    let s1 : SegState :=
      { s with allFrames := s.allFrames ++ [f], phraseFrames := s.phraseFrames ++ [f] }
    if isSpeech cfg f then
      -- lines 96-102
      .next { s1 with recordingStarted := true, silenceFrames := 0 }
    else if s.recordingStarted then
      -- lines 103-135: silence while recording has started
      if s.silenceFrames + 1 = shortPauseFrames cfg ∧
          minPhraseFrames cfg ≤ s1.phraseFrames.length then
        -- lines 107-130: short pause = phrase boundary, emit and reset
        .next { s1 with
                silenceFrames := s.silenceFrames + 1
                emits := s.emits ++ [s1.phraseFrames]
                phraseFrames := [] }
      else if longPauseFrames cfg < s.silenceFrames + 1 then
        -- lines 133-135: long pause = end recording
        .halt { s1 with silenceFrames := s.silenceFrames + 1 } .longPause
      else
        .next { s1 with silenceFrames := s.silenceFrames + 1 }
    else
      -- silence before any speech: no branch of lines 96-135 fires
      .next s1

/-- The capture loop: iterates `captureStep` for at most `fuel` more
iterations starting at loop index `i`; exhausting the range is the
`for`-loop completing normally (`maxDuration`). `frames i` is the audio read
at iteration `i`, `stop i` the stop flag/file observed at iteration `i`. -/
def captureLoop (cfg : AudioConfig) (frames : ℕ → Frame) (stop : ℕ → Bool) :
    ℕ → ℕ → SegState → SegState × ExitReason
  | 0, _, s => (s, .maxDuration)
  | fuel + 1, i, s =>
    match captureStep cfg (stop i) (frames i) s with
    | .next s1 => captureLoop cfg frames stop fuel (i + 1) s1
    | .halt s1 r => (s1, r)

/-- The post-loop final flush (audio_utils.py:148-161): a pending phrase is
sent to the callback only if recording started and it is at least
`final_min_frames` (1.0 s) long; shorter tails are only logged. -/
def finalFlush (cfg : AudioConfig) (s : SegState) : SegState :=
  if s.phraseFrames ≠ [] ∧ s.recordingStarted = true ∧
      finalMinFrames cfg ≤ s.phraseFrames.length then
    { s with emits := s.emits ++ [s.phraseFrames] }
  else
    s

/-- Method `AudioCapture.capture_streaming_audio` (audio_utils.py:26-162): runs the
bounded loop from the initial state then applies the final flush. Returns
the final segmenter state (whose `emits` lists every callback invocation in
order) and the reason the loop ended. -/
def capture_streaming_audio (cfg : AudioConfig) (maxDuration : ℕ)
    (frames : ℕ → Frame) (stop : ℕ → Bool) : SegState × ExitReason :=
  let (s, r) := captureLoop cfg frames stop (maxFramesOf cfg maxDuration) 0 {}
  (finalFlush cfg s, r)

/-! ### Streaming engine turn handler (src/assemblyai_transcriber.py) -/

/-- Python `str.strip()`: remove whitespace from both ends of a string.
Used by every component that strips transcripts before testing emptiness. -/
def pyStrip (s : String) : String :=
  ⟨((s.data.dropWhile Char.isWhitespace).reverse.dropWhile Char.isWhitespace).reverse⟩

/-- A turn event received from the streaming STT service
(assemblyai_transcriber.py:143-166). -/
structure TurnEvent where
  transcript : String
  end_of_turn : Bool
  turn_is_formatted : Bool
deriving DecidableEq, Repr

/-- Handler `on_turn` (assemblyai_transcriber.py:143-166): given the accumulated
`full_text`, returns the new `full_text` and the list of
`(transcript, full_text.strip())` pairs passed to `text_callback` by this
event (empty or a singleton). Python truthiness of the stripped transcript
is `≠ ""`. -/
def on_turn (fullText : String) (e : TurnEvent) : String × List (String × String) :=
  let t := pyStrip e.transcript
  if t ≠ "" ∧ e.end_of_turn = true ∧ e.turn_is_formatted = true then
    let joined := if fullText ≠ "" ∧ ¬fullText.endsWith " " then fullText ++ " " else fullText
    let updated := joined ++ t
    (updated, [(t, pyStrip updated)])
  else
    (fullText, [])

/-! ### Chunked-HTTP engine (src/elevenlabs_transcriber.py) -/

/-- The outcome of one HTTP attempt inside `_transcribe_with_retry`:
a 200 response carrying the JSON `text`, any other status code, or one of
the two request exceptions the code distinguishes. -/
inductive ApiResponse
  | ok (text : String)
  | status (code : ℕ)
  | timeout
  | connError
deriving DecidableEq, Repr

/-- The retry loop of `_transcribe_with_retry` (elevenlabs_transcriber.py:
184-270). `rs a` is the outcome of attempt `a` (0-based, as in
`for attempt in range(self.max_retries + 1)`); `sleeps` accumulates every
`time.sleep` duration in order. Returns the function's result (the stripped
200 text, or `none`) together with the sleeps performed. -/
def retryGo (maxRetries : ℕ) (d : ℚ) (rs : ℕ → ApiResponse) :
    ℕ → ℕ → List ℚ → Option String × List ℚ
  | 0, _, sleeps => (none, sleeps)
  | rem + 1, attempt, sleeps =>
    match rs attempt with
    | .ok t => (some (pyStrip t), sleeps)
    | .status c =>
      if c = 429 then
        -- lines 229-234: rate limited, linear backoff delay * (attempt + 1)
        if attempt < maxRetries then
          retryGo maxRetries d rs rem (attempt + 1) (sleeps ++ [d * ((attempt : ℚ) + 1)])
        else (none, sleeps)
      else if c = 401 then
        -- lines 236-238: authentication failure, no retry
        (none, sleeps)
      else if 500 ≤ c then
        -- lines 240-245: server error, constant delay
        if attempt < maxRetries then
          retryGo maxRetries d rs rem (attempt + 1) (sleeps ++ [d])
        else (none, sleeps)
      else
        -- lines 247-249: any other status is terminal
        (none, sleeps)
    | .timeout =>
      -- lines 251-256: constant delay
      if attempt < maxRetries then
        retryGo maxRetries d rs rem (attempt + 1) (sleeps ++ [d])
      else (none, sleeps)
    | .connError =>
      -- lines 258-263: constant delay
      if attempt < maxRetries then
        retryGo maxRetries d rs rem (attempt + 1) (sleeps ++ [d])
      else (none, sleeps)

/-- Method `ElevenLabsTranscriber._transcribe_with_retry` with the configured
`max_retries` and `retry_delay` (elevenlabs_transcriber.py:35-36 set
`max_retries = 2`, `retry_delay = 1.0`). -/
def transcribe_with_retry (maxRetries : ℕ) (d : ℚ) (rs : ℕ → ApiResponse) :
    Option String × List ℚ :=
  retryGo maxRetries d rs (maxRetries + 1) 0 []

/-- Mean of the squared float samples (`np.mean(audio_np ** 2)`), `0` for an
empty clip; the square of the RMS computed at elevenlabs_transcriber.py:166. -/
def meanSq (xs : List ℚ) : ℚ :=
  if xs = [] then 0 else ((xs.map (fun x => x ^ 2)).sum) / (xs.length : ℚ)

/-- Peak `np.max(np.abs(audio_np))` (elevenlabs_transcriber.py:167), seeded with
0, which is sound because every `|x|` is nonnegative and the empty case is
handled before this is evaluated. -/
def peakAbs (xs : List ℚ) : ℚ :=
  (xs.map (fun x => |x|)).foldl max 0

/-- Method `ElevenLabsTranscriber._is_mostly_silent` (elevenlabs_transcriber.py:
152-182) on the float-sample view of the clip: empty clips are silent;
otherwise silent iff `rms < 0.01` and `peak < 0.05`. The RMS comparison is
embedded on squares: `sqrt(meanSq) < 1/100 ↔ meanSq < (1/100)^2` since both
sides are nonnegative. -/
def is_mostly_silent (xs : List ℚ) : Bool :=
  if xs.length = 0 then true
  else decide (meanSq xs < (1 / 100 : ℚ) ^ 2 ∧ peakAbs xs < 5 / 100)

/-- WAV payload size in bytes produced by `frames_to_wav_bytes` for `n`
int16 mono samples: a 44-byte canonical WAV header plus 2 bytes per sample. -/
def wavByteLength (n : ℕ) : ℕ := 44 + 2 * n

/-- What `ElevenLabsTranscriber.transcribe_audio` does before (or instead
of) touching the network. -/
inductive TranscribeAction
  | errNoKey      -- returns None: no API key (line 120-122)
  | skipShort     -- returns "" with no network request (lines 140-142)
  | skipSilent    -- returns "" with no network request (lines 144-148)
  | sendRequest   -- proceeds to `_transcribe_with_retry` (line 150)
deriving DecidableEq, Repr

/-- Method `ElevenLabsTranscriber.transcribe_audio` (elevenlabs_transcriber.py:
109-150) on a numpy float clip `samples`: the decision of whether the
request is skipped and what is returned, before the retry loop runs. -/
def transcribe_audio (apiKey : Option String) (samples : List ℚ) : TranscribeAction :=
  match apiKey with
  | none => .errNoKey
  | some _ =>
    if wavByteLength samples.length < 16000 then .skipShort
    else if wavByteLength samples.length < 64000 ∧ is_mostly_silent samples then .skipSilent
    else .sendRequest

/-! ### Session controller (src/voice_hybrid.py) -/

/-- The observable behaviour of one `transcribe_streaming` run of an
engine: it either returns a full text or raises. -/
inductive EngineRun
  | success (text : String)
  | raises
deriving DecidableEq, Repr

/-- The environment `HybridVoiceTranscriber.transcribe` runs against:
whether an ElevenLabs key is configured, whether Whisper is available, and
what each engine's streaming run does when invoked. -/
structure HybridEnv where
  elevenlabsKey : Bool
  whisperAvailable : Bool
  elevenlabsRun : EngineRun
  whisperRun : EngineRun
deriving DecidableEq, Repr

/-- State-affecting actions `transcribe` performs, in order. -/
inductive SessionAction
  | resetStopFlag
  | runElevenLabs
  | runWhisper
deriving DecidableEq, Repr

/-- Method `HybridVoiceTranscriber.transcribe` (voice_hybrid.py:128-227): returns
(success flag, `current_engine` at return, the ordered list of stop-flag
resets and engine runs). Engine selection follows
`_select_transcription_engine` (lines 91-114); the exception handler at
lines 194-227 implements the Whisper fallback. -/
def hybrid_transcribe (env : HybridEnv) : Bool × Option String × List SessionAction :=
  if env.elevenlabsKey then
    -- primary engine: ElevenLabs (line 95-98); line 156 resets the stop flag
    match env.elevenlabsRun with
    | .success t =>
      (decide (pyStrip t ≠ ""), some "elevenlabs", [.resetStopFlag, .runElevenLabs])
    | .raises =>
      if env.whisperAvailable then
        -- lines 198-220: reset stop flag, rerun the session with Whisper once
        match env.whisperRun with
        | .success t =>
          (decide (pyStrip t ≠ ""), some "whisper",
            [.resetStopFlag, .runElevenLabs, .resetStopFlag, .runWhisper])
        | .raises =>
          (false, some "whisper",
            [.resetStopFlag, .runElevenLabs, .resetStopFlag, .runWhisper])
      else
        (false, some "elevenlabs", [.resetStopFlag, .runElevenLabs])
  else if env.whisperAvailable then
    -- no API key: Whisper is the primary engine (lines 101-109)
    match env.whisperRun with
    | .success t => (decide (pyStrip t ≠ ""), some "whisper", [.resetStopFlag, .runWhisper])
    | .raises => (false, some "whisper", [.resetStopFlag, .runWhisper])
  else
    (false, none, [])

/-- Callback `HybridVoiceTranscriber._handle_transcription_result`
(voice_hybrid.py:116-126): the strings passed to
`TextInjector.inject_text` for one finalized phrase fragment — the fragment
with a single `" "` appended when it is nonempty after stripping, nothing
otherwise. -/
def handle_transcription_result (phrase_text : String) : List String :=
  if pyStrip phrase_text ≠ "" then [phrase_text ++ " "] else []

/-- All strings handed to the text injector over a session, in the
chronological order the phrase fragments were finalized. -/
def progressive_injections : List String → List String
  | [] => []
  | p :: ps => handle_transcription_result p ++ progressive_injections ps

/-! ### Helper lemmas -/

lemma append_singleton_ne {α : Type} (l : List α) (x : α) : l ++ [x] ≠ l := by
  intro h
  have hlen := congrArg List.length h
  simp at hlen

lemma calculate_volume_sq_nonneg (xs : List ℤ) : 0 ≤ calculate_volume_sq xs := by
  unfold calculate_volume_sq
  split
  · exact le_refl 0
  · apply div_nonneg
    · apply List.sum_nonneg
      intro x hx
      simp only [List.mem_map] at hx
      obtain ⟨a, _, rfl⟩ := hx
      positivity
    · positivity

/-- The default derived frame counts agree with the exact rational reading
of the source's float formulas `int(sample_rate / chunk_size * x)`. -/
lemma framesOf_eq_ratFloor :
    shortPauseFrames audioConfig = (⌊(16000 : ℚ) / 1024 * (3 / 2)⌋).toNat ∧
    longPauseFrames audioConfig = (⌊(16000 : ℚ) / 1024 * 4⌋).toNat ∧
    minPhraseFrames audioConfig = (⌊(16000 : ℚ) / 1024 * 2⌋).toNat ∧
    finalMinFrames audioConfig = (⌊(16000 : ℚ) / 1024 * 1⌋).toNat := by
  have h1 : (⌊(16000 : ℚ) / 1024 * (3 / 2)⌋) = 23 := by
    rw [Int.floor_eq_iff]
    norm_num
  have h2 : (⌊(16000 : ℚ) / 1024 * 4⌋) = 62 := by
    rw [Int.floor_eq_iff]
    norm_num
  have h3 : (⌊(16000 : ℚ) / 1024 * 2⌋) = 31 := by
    rw [Int.floor_eq_iff]
    norm_num
  have h4 : (⌊(16000 : ℚ) / 1024 * 1⌋) = 15 := by
    rw [Int.floor_eq_iff]
    norm_num
  refine ⟨?_, ?_, ?_, ?_⟩
  · rw [h1]; decide
  · rw [h2]; decide
  · rw [h3]; decide
  · rw [h4]; decide

lemma sq_sum_cast (xs : List ℤ) :
    ((xs.map (fun x : ℤ => ((x : ℚ)) ^ 2)).sum) = ((sumSq xs : ℤ) : ℚ) := by
  unfold sumSq
  induction xs with
  | nil => simp
  | cons a as ih =>
    simp only [List.map_cons, List.sum_cons, ih]
    push_cast
    ring

lemma calculate_volume_sq_eq_sumSq (xs : List ℤ) (h : xs ≠ []) :
    calculate_volume_sq xs = (sumSq xs : ℚ) / (xs.length : ℚ) := by
  unfold calculate_volume_sq
  rw [if_neg h, sq_sum_cast]

lemma isSpeech_iff (xs : List ℤ) :
    isSpeech audioConfig xs = true ↔ (2500 : ℚ) < calculate_volume_sq xs := by
  rcases eq_or_ne xs [] with h | h
  · subst h
    constructor
    · intro hc; exact absurd hc (by decide)
    · intro hc; exact absurd hc (by norm_num [calculate_volume_sq])
  · have hlen : 0 < (xs.length : ℚ) := by
      have := List.length_pos.mpr h
      exact_mod_cast this
    rw [calculate_volume_sq_eq_sumSq xs h]
    rw [lt_div_iff₀ hlen]
    have hths : audioConfig.silenceThreshold * audioConfig.silenceThreshold = (2500 : ℤ) := by
      decide
    constructor
    · intro hc
      have hc' := of_decide_eq_true hc
      rw [hths] at hc'
      exact_mod_cast hc'
    · intro hc
      apply decide_eq_true
      rw [hths]
      exact_mod_cast hc

/-! ### Claim theorems -/

/-- C5 counterexample: the frame `[50]` has RMS `sqrt(mean(sample^2))`
exactly equal to the default silence threshold 50, yet the classifier at
audio_utils.py:96 (`volume > self.silence_threshold`) classifies it as
silence, contradicting "a frame with volume at or above the threshold is
classified as speech". -/
theorem vad_at_threshold_counterexample :
    Real.sqrt ((calculate_volume_sq [(50 : ℤ)] : ℚ) : ℝ) = 50 ∧
    isSpeech audioConfig [(50 : ℤ)] = false := by
  have hval : calculate_volume_sq [(50 : ℤ)] = 2500 := by
    norm_num [calculate_volume_sq]
  constructor
  · rw [hval]
    rw [show (((2500 : ℚ) : ℝ)) = (50 : ℝ) ^ 2 by norm_num]
    exact Real.sqrt_sq (by norm_num)
  · have h1 := isSpeech_iff [(50 : ℤ)]
    rw [hval] at h1
    rw [Bool.eq_false_iff, ne_eq, h1]
    norm_num

/-- C5 (amended): the voice-activity classifier is a pure function of the
frame computing the RMS `sqrt(mean(sample^2))` over the int16 samples, and
against the default threshold 50 a frame is classified as speech iff its
RMS is strictly above 50; a frame whose RMS is at or below 50 (including
exactly at the threshold) is classified as silence. -/
theorem vad_rms_classification (xs : List ℤ) :
    (isSpeech audioConfig xs = true ↔
      (50 : ℝ) < Real.sqrt ((calculate_volume_sq xs : ℚ) : ℝ)) ∧
    (isSpeech audioConfig xs = false ↔
      Real.sqrt ((calculate_volume_sq xs : ℚ) : ℝ) ≤ 50) := by
  have hiff : (50 : ℝ) < Real.sqrt ((calculate_volume_sq xs : ℚ) : ℝ) ↔
      (2500 : ℚ) < calculate_volume_sq xs := by
    rw [Real.lt_sqrt (by norm_num : (0 : ℝ) ≤ 50)]
    constructor
    · intro h
      have : ((2500 : ℚ) : ℝ) < ((calculate_volume_sq xs : ℚ) : ℝ) := by
        calc ((2500 : ℚ) : ℝ) = (50 : ℝ) ^ 2 := by norm_num
        _ < _ := h
      exact_mod_cast this
    · intro h
      calc (50 : ℝ) ^ 2 = ((2500 : ℚ) : ℝ) := by norm_num
      _ < _ := by exact_mod_cast h
  constructor
  · rw [isSpeech_iff, hiff]
  · rw [Bool.eq_false_iff, ne_eq, isSpeech_iff, ← hiff]
    exact not_lt

/-- C1: in the phrase segmenter, a silence frame that brings the silence-run
counter to exactly `short_pause_frames` while the buffer (including this
frame) holds at least `min_phrase_frames` frames causes the buffered phrase
to be passed to the callback, the buffer to reset to empty, and the loop to
continue (non-terminal); in every other silence step while recording, no
phrase is emitted and the buffer keeps accumulating — so a short pause over
an under-length buffer never triggers a boundary. -/
theorem short_pause_phrase_boundary :
    (∀ (s : SegState) (f : Frame),
      s.recordingStarted = true →
      isSpeech audioConfig f = false →
      s.silenceFrames + 1 = shortPauseFrames audioConfig →
      minPhraseFrames audioConfig ≤ s.phraseFrames.length + 1 →
      captureStep audioConfig false f s =
        .next { s with
                allFrames := s.allFrames ++ [f]
                phraseFrames := []
                silenceFrames := s.silenceFrames + 1
                emits := s.emits ++ [s.phraseFrames ++ [f]] }) ∧
    (∀ (s : SegState) (f : Frame),
      s.recordingStarted = true →
      isSpeech audioConfig f = false →
      ¬(s.silenceFrames + 1 = shortPauseFrames audioConfig ∧
          minPhraseFrames audioConfig ≤ s.phraseFrames.length + 1) →
      (captureStep audioConfig false f s).state.emits = s.emits ∧
      (captureStep audioConfig false f s).state.phraseFrames = s.phraseFrames ++ [f]) := by
  constructor
  · intro s f hrec hsil hcount hlen
    simp [captureStep, hsil, hrec, hcount, hlen]
  · intro s f hrec hsil hnc
    by_cases hl : longPauseFrames audioConfig < s.silenceFrames + 1
    · simp [captureStep, hsil, hrec, hnc, hl, StepResult.state]
    · simp [captureStep, hsil, hrec, hnc, hl, StepResult.state]

/-- Witness for C1: a concrete boundary step. The segmenter has recorded
30 buffered frames and 22 prior silence frames; one more silence frame
makes the counter hit `shortPauseFrames = 23` with 31 ≥
`minPhraseFrames = 31` buffered frames, so the phrase is emitted, the
buffer resets, and capture continues. -/
theorem short_pause_phrase_boundary_witness :
    captureStep audioConfig false [0]
      { allFrames := List.replicate 30 [600]
        phraseFrames := List.replicate 30 [600]
        silenceFrames := 22
        recordingStarted := true
        emits := [] } =
      .next { allFrames := List.replicate 30 [600] ++ [[0]]
              phraseFrames := []
              silenceFrames := 23
              recordingStarted := true
              emits := [List.replicate 30 ([600] : Frame) ++ [[0]]] } := by
  have h := short_pause_phrase_boundary.1
    { allFrames := List.replicate 30 [600]
      phraseFrames := List.replicate 30 [600]
      silenceFrames := 22
      recordingStarted := true
      emits := [] } [0] rfl (by decide) (by decide) (by decide)
  simpa using h

/-- C4 counterexample: the external stop flag fires at iteration 1 of a
45 s capture whose only prior frame was speech, so the buffered phrase
holds a single frame (0.064 s, far below the 1.0 s final minimum of
`finalMinFrames = 15` frames) — yet the stop branch (audio_utils.py:63-71)
passes it to the callback instead of discarding it, refuting "setting the
stop flag mid-capture emits the buffered phrase only if it is at least the
final minimum duration". -/
theorem stop_flag_short_tail_counterexample :
    (capture_streaming_audio audioConfig 45 (fun _ => [3000]) (fun i => i == 1)).1.emits
      = [[[3000]]] ∧
    (capture_streaming_audio audioConfig 45 (fun _ => [3000]) (fun i => i == 1)).2
      = .externalStop ∧
    [[(3000 : ℤ)]].length < finalMinFrames audioConfig := by
  refine ⟨?_, ?_, ?_⟩ <;> decide

/-- C4 (amended): on termination via long pause or max-duration the
post-loop flush sends the buffered phrase to the callback exactly when
recording has started and the buffer is at least the final minimum
(1.0 s, shorter than the 2.0 s mid-session minimum), discarding shorter
tails without a callback; but on external stop (stop flag or stop file)
the stop branch flushes any nonempty buffer with recording started
immediately, regardless of the final minimum. -/
theorem forced_termination_flush :
    (∀ (s : SegState) (f : Frame),
      ((captureStep audioConfig true f s).state.emits ≠ s.emits ↔
        s.phraseFrames ≠ [] ∧ s.recordingStarted = true) ∧
      (s.phraseFrames ≠ [] → s.recordingStarted = true →
        (captureStep audioConfig true f s).state.emits = s.emits ++ [s.phraseFrames]) ∧
      (captureStep audioConfig true f s) =
        .halt (captureStep audioConfig true f s).state .externalStop) ∧
    (∀ s : SegState,
      ((finalFlush audioConfig s).emits ≠ s.emits ↔
        s.phraseFrames ≠ [] ∧ s.recordingStarted = true ∧
          finalMinFrames audioConfig ≤ s.phraseFrames.length) ∧
      (s.phraseFrames ≠ [] → s.recordingStarted = true →
        finalMinFrames audioConfig ≤ s.phraseFrames.length →
        (finalFlush audioConfig s).emits = s.emits ++ [s.phraseFrames])) := by
  constructor
  · intro s f
    by_cases hc : s.phraseFrames ≠ [] ∧ s.recordingStarted = true
    · refine ⟨?_, ?_, ?_⟩
      · simp only [captureStep, if_pos hc, StepResult.state, if_true]
        constructor
        · intro _; exact hc
        · intro _; exact (append_singleton_ne s.emits s.phraseFrames).symm ∘ Eq.symm
      · intro h1 h2
        simp [captureStep, hc, StepResult.state]
      · simp [captureStep, hc, StepResult.state]
    · refine ⟨?_, ?_, ?_⟩
      · simp only [captureStep, if_neg hc, StepResult.state, if_true]
        constructor
        · intro h; exact absurd rfl h
        · intro h; exact absurd h hc
      · intro h1 h2; exact absurd ⟨h1, h2⟩ hc
      · simp [captureStep, hc, StepResult.state]
  · intro s
    by_cases hc : s.phraseFrames ≠ [] ∧ s.recordingStarted = true ∧
        finalMinFrames audioConfig ≤ s.phraseFrames.length
    · constructor
      · simp only [finalFlush, if_pos hc]
        constructor
        · intro _; exact hc
        · intro _; exact (append_singleton_ne s.emits s.phraseFrames).symm ∘ Eq.symm
      · intro _ _ _
        simp [finalFlush, hc]
    · constructor
      · simp only [finalFlush, if_neg hc]
        constructor
        · intro h; exact absurd rfl h
        · intro h; exact absurd h hc
      · intro h1 h2 h3; exact absurd ⟨h1, h2, h3⟩ hc

/-- Witness for C4 (amended): a concrete stop-flag step flushes a
single-frame buffer (below the final minimum) to the callback, and a
concrete post-loop flush of a 15-frame buffer emits it. -/
theorem forced_termination_flush_witness :
    (captureStep audioConfig true [0]
      { allFrames := [[7]]
        phraseFrames := [[7]]
        silenceFrames := 0
        recordingStarted := true
        emits := [] }).state.emits = [[[7]]] ∧
    (finalFlush audioConfig
      { allFrames := List.replicate 15 [9]
        phraseFrames := List.replicate 15 [9]
        silenceFrames := 3
        recordingStarted := true
        emits := [] }).emits = [List.replicate 15 ([9] : Frame)] := by
  constructor
  · have h := (forced_termination_flush.1
      { allFrames := [[7]]
        phraseFrames := [[7]]
        silenceFrames := 0
        recordingStarted := true
        emits := [] } [0]).2.1 (by decide) rfl
    simpa using h
  · have h := (forced_termination_flush.2
      { allFrames := List.replicate 15 [9]
        phraseFrames := List.replicate 15 [9]
        silenceFrames := 3
        recordingStarted := true
        emits := [] }).2 (by decide) rfl (by decide)
    simpa using h

/-- Invariant for silence-only, stop-free runs: before any speech frame the
step neither starts recording, nor touches the silence counter or `emits`,
so the loop always exhausts its full range. -/
lemma silence_loop_invariant (frames : ℕ → Frame) (stop : ℕ → Bool)
    (hf : ∀ i, isSpeech audioConfig (frames i) = false)
    (hs : ∀ i, stop i = false) :
    ∀ (fuel i : ℕ) (s : SegState), s.recordingStarted = false →
      (captureLoop audioConfig frames stop fuel i s).2 = .maxDuration ∧
      (captureLoop audioConfig frames stop fuel i s).1.recordingStarted = false ∧
      (captureLoop audioConfig frames stop fuel i s).1.emits = s.emits ∧
      (captureLoop audioConfig frames stop fuel i s).1.silenceFrames = s.silenceFrames ∧
      (captureLoop audioConfig frames stop fuel i s).1.allFrames.length
        = s.allFrames.length + fuel := by
  intro fuel
  induction fuel with
  | zero =>
    intro i s h
    simp [captureLoop, h]
  | succ n ih =>
    intro i s h
    have hstep : captureStep audioConfig (stop i) (frames i) s =
        .next { s with
                allFrames := s.allFrames ++ [frames i]
                phraseFrames := s.phraseFrames ++ [frames i] } := by
      simp [captureStep, hs i, hf i, h]
    have hrec :
        captureLoop audioConfig frames stop (n + 1) i s =
          captureLoop audioConfig frames stop n (i + 1)
            { s with
              allFrames := s.allFrames ++ [frames i]
              phraseFrames := s.phraseFrames ++ [frames i] } := by
      simp [captureLoop, hstep]
    rw [hrec]
    have := ih (i + 1)
      { s with
        allFrames := s.allFrames ++ [frames i]
        phraseFrames := s.phraseFrames ++ [frames i] } h
    refine ⟨this.1, this.2.1, this.2.2.1, this.2.2.2.1, ?_⟩
    rw [this.2.2.2.2]
    simp
    omega

/-- C6: for every input consisting only of silence frames, with no external
stop, the segmenter invokes the phrase callback zero times and the session
ends via the long-pause branch or max-duration exhaustion (in fact always
the latter, since the silence counter never starts). -/
theorem silence_only_no_phrases (frames : ℕ → Frame) (stop : ℕ → Bool) (d : ℕ)
    (hf : ∀ i, isSpeech audioConfig (frames i) = false)
    (hs : ∀ i, stop i = false) :
    (capture_streaming_audio audioConfig d frames stop).1.emits = [] ∧
    ((capture_streaming_audio audioConfig d frames stop).2 = .longPause ∨
      (capture_streaming_audio audioConfig d frames stop).2 = .maxDuration) := by
  have h := silence_loop_invariant frames stop hf hs
    (maxFramesOf audioConfig d) 0 {} rfl
  have hflush : finalFlush audioConfig
      (captureLoop audioConfig frames stop (maxFramesOf audioConfig d) 0 {}).1 =
      (captureLoop audioConfig frames stop (maxFramesOf audioConfig d) 0 {}).1 := by
    unfold finalFlush
    rw [if_neg]
    intro hcond
    rw [h.2.1] at hcond
    exact absurd hcond.2.1 (by simp)
  constructor
  · show (finalFlush audioConfig _).emits = []
    rw [hflush, h.2.2.1]
  · right
    show (captureLoop audioConfig frames stop (maxFramesOf audioConfig d) 0 {}).2 = _
    exact h.1

/-- Witness for C6: a 1 s capture of constant zero frames, never stopped,
emits no phrase and ends by exhausting `max_frames`. -/
theorem silence_only_no_phrases_witness :
    (capture_streaming_audio audioConfig 1 (fun _ => [0]) (fun _ => false)).1.emits = [] ∧
    ((capture_streaming_audio audioConfig 1 (fun _ => [0]) (fun _ => false)).2 = .longPause ∨
      (capture_streaming_audio audioConfig 1 (fun _ => [0]) (fun _ => false)).2
        = .maxDuration) :=
  silence_only_no_phrases (fun _ => [0]) (fun _ => false) 1
    (by intro i; show isSpeech audioConfig [0] = false; decide) (fun _ => rfl)

/-- C10: while `recording_started` is false a silence frame does not
increment the silence-run counter (the `elif recording_started` guard at
audio_utils.py:103 fails), so the long-pause branch is unreachable before
the first speech frame; consequently a capture whose input never contains a
speech frame (and is never stopped externally) runs for the full
`max_frames` and returns by exhausting the range, never via the long-pause
branch. -/
theorem no_speech_full_duration :
    (∀ (s : SegState) (f : Frame),
      s.recordingStarted = false → isSpeech audioConfig f = false →
      captureStep audioConfig false f s =
        .next { s with
                allFrames := s.allFrames ++ [f]
                phraseFrames := s.phraseFrames ++ [f] }) ∧
    (∀ (frames : ℕ → Frame) (stop : ℕ → Bool) (d : ℕ),
      (∀ i, isSpeech audioConfig (frames i) = false) →
      (∀ i, stop i = false) →
      (capture_streaming_audio audioConfig d frames stop).2 = .maxDuration ∧
      (capture_streaming_audio audioConfig d frames stop).1.allFrames.length
        = maxFramesOf audioConfig d) := by
  constructor
  · intro s f hrec hsil
    simp [captureStep, hsil, hrec]
  · intro frames stop d hf hs
    have h := silence_loop_invariant frames stop hf hs
      (maxFramesOf audioConfig d) 0 {} rfl
    have hflush : finalFlush audioConfig
        (captureLoop audioConfig frames stop (maxFramesOf audioConfig d) 0 {}).1 =
        (captureLoop audioConfig frames stop (maxFramesOf audioConfig d) 0 {}).1 := by
      unfold finalFlush
      rw [if_neg]
      intro hcond
      rw [h.2.1] at hcond
      exact absurd hcond.2.1 (by simp)
    constructor
    · exact h.1
    · show (finalFlush audioConfig _).allFrames.length = _
      rw [hflush, h.2.2.2.2]
      simp

/-- Witness for C10: a 2 s capture of constant quiet frames (sample value 1,
below the threshold), never stopped, exits by exhausting the full
`max_frames = 31` iterations and not through the long-pause branch. -/
theorem no_speech_full_duration_witness :
    (capture_streaming_audio audioConfig 2 (fun _ => [1]) (fun _ => false)).2
      = .maxDuration ∧
    (capture_streaming_audio audioConfig 2 (fun _ => [1]) (fun _ => false)).1.allFrames.length
      = maxFramesOf audioConfig 2 :=
  no_speech_full_duration.2 (fun _ => [1]) (fun _ => false) 2
    (by intro i; show isSpeech audioConfig [1] = false; decide) (fun _ => rfl)

/-- C2: the streaming engine's turn handler leaves the accumulated
transcript unchanged and does not invoke the text callback for every turn
event where `end_of_turn` or `turn_is_formatted` is false; and whenever it
changes the transcript or invokes the callback, both flags were true. -/
theorem turn_commit_filter (fullText : String) (e : TurnEvent) :
    (e.end_of_turn = false ∨ e.turn_is_formatted = false →
      on_turn fullText e = (fullText, [])) ∧
    ((on_turn fullText e).1 ≠ fullText ∨ (on_turn fullText e).2 ≠ [] →
      e.end_of_turn = true ∧ e.turn_is_formatted = true) := by
  by_cases hc : pyStrip e.transcript ≠ "" ∧ e.end_of_turn = true ∧ e.turn_is_formatted = true
  · constructor
    · rintro (h | h)
      · rw [h] at hc; exact absurd hc.2.1 (by simp)
      · rw [h] at hc; exact absurd hc.2.2 (by simp)
    · intro _; exact ⟨hc.2.1, hc.2.2⟩
  · have hnoop : on_turn fullText e = (fullText, []) := by
      unfold on_turn
      rw [if_neg hc]
    constructor
    · intro _; exact hnoop
    · intro h
      rw [hnoop] at h
      rcases h with h | h
      · exact absurd rfl h
      · exact absurd rfl h

/-- Witness for C2: a turn event with `end_of_turn = true` but
`turn_is_formatted = false` leaves the transcript unchanged and produces no
callback. -/
theorem turn_commit_filter_witness :
    on_turn "prior text" { transcript := "hello world"
                           end_of_turn := true
                           turn_is_formatted := false } = ("prior text", []) :=
  (turn_commit_filter "prior text"
    { transcript := "hello world", end_of_turn := true, turn_is_formatted := false }).1
    (Or.inr rfl)

/-- C3 counterexample: with the configured `max_retries = 2` and
`retry_delay = 1.0`, a request that keeps returning HTTP 500 sleeps
`[1, 1]` (constant `retry_delay`, elevenlabs_transcriber.py:243), not the
linear-backoff `[delay * 1, delay * 2] = [1, 2]` the claim asserts for
"429 or any 5xx". -/
theorem retry_5xx_constant_backoff_counterexample :
    (transcribe_with_retry 2 1 (fun _ => .status 500)).2 = [1, 1] ∧
    ¬ ((transcribe_with_retry 2 1 (fun _ => .status 500)).2
        = [(1 : ℚ) * 1, (1 : ℚ) * 2]) := by
  constructor
  · norm_num [transcribe_with_retry, retryGo]
  · norm_num [transcribe_with_retry, retryGo]

/-- C3 (amended): with the configured `max_retries = 2` and
`retry_delay = 1.0` — on HTTP 429 the request is retried up to 2 times with
linear backoff `delay * attempt_number` before giving up; on any 5xx it is
retried up to 2 times with the constant delay `retry_delay` (not linear);
on 401 it fails immediately with no retry and no sleep; on timeout or
connection error it retries up to 2 times with the constant delay then
gives up; any other non-200 status is a terminal failure for that phrase;
a later 200 response ends the retrying with its stripped body text. -/
theorem retry_policy (t : String) :
    transcribe_with_retry 2 1 (fun _ => .status 429) = (none, [1, 2]) ∧
    transcribe_with_retry 2 1 (fun _ => .status 500) = (none, [1, 1]) ∧
    transcribe_with_retry 2 1 (fun _ => .status 503) = (none, [1, 1]) ∧
    transcribe_with_retry 2 1 (fun _ => .status 401) = (none, []) ∧
    transcribe_with_retry 2 1 (fun _ => .timeout) = (none, [1, 1]) ∧
    transcribe_with_retry 2 1 (fun _ => .connError) = (none, [1, 1]) ∧
    transcribe_with_retry 2 1 (fun _ => .status 404) = (none, []) ∧
    transcribe_with_retry 2 1 (fun i => if i = 0 then .status 429 else .ok t)
      = (some (pyStrip t), [1]) := by
  refine ⟨?_, ?_, ?_, ?_, ?_, ?_, ?_, ?_⟩ <;>
    norm_num [transcribe_with_retry, retryGo]

/-- C7: with an API key configured, `transcribe_audio` returns the empty
string without issuing any network request whenever the encoded WAV payload
is under 16000 bytes (~0.5 s), and for payloads under 64000 bytes (~2 s)
that the RMS-plus-peak pre-check judges silent it likewise returns the
empty string without networking. -/
theorem transcribe_audio_skip_policy (k : String) (samples : List ℚ) :
    (wavByteLength samples.length < 16000 →
      transcribe_audio (some k) samples = .skipShort) ∧
    (16000 ≤ wavByteLength samples.length →
      wavByteLength samples.length < 64000 →
      is_mostly_silent samples = true →
      transcribe_audio (some k) samples = .skipSilent) := by
  constructor
  · intro h
    simp [transcribe_audio, h]
  · intro h1 h2 h3
    simp [transcribe_audio, h2, h3, Nat.not_lt.mpr h1]

lemma foldl_max_replicate_zero :
    ∀ n : ℕ, (List.replicate n (0 : ℚ)).foldl max 0 = 0
  | 0 => rfl
  | n + 1 => by
    rw [List.replicate_succ, List.foldl_cons, max_self]
    exact foldl_max_replicate_zero n

lemma is_mostly_silent_zeros (n : ℕ) :
    is_mostly_silent (List.replicate n (0 : ℚ)) = true := by
  rcases Nat.eq_zero_or_pos n with h | h
  · subst h; rfl
  · unfold is_mostly_silent
    rw [if_neg (by simp; omega)]
    apply decide_eq_true
    constructor
    · unfold meanSq
      rw [if_neg (by simp; omega)]
      simp
    · unfold peakAbs
      rw [show (List.replicate n (0 : ℚ)).map (fun x => |x|)
            = List.replicate n (0 : ℚ) by simp]
      rw [foldl_max_replicate_zero]
      norm_num

/-- Witness for C7: the empty clip (44-byte WAV) is skipped as too short,
and an 8000-sample all-zero clip (16044 bytes, under 64000) passes the
byte-size gate but is skipped by the silence pre-check. -/
theorem transcribe_audio_skip_policy_witness :
    transcribe_audio (some "sk_test") [] = .skipShort ∧
    transcribe_audio (some "sk_test") (List.replicate 8000 (0 : ℚ)) = .skipSilent := by
  constructor
  · exact (transcribe_audio_skip_policy "sk_test" []).1 (by decide)
  · exact (transcribe_audio_skip_policy "sk_test" (List.replicate 8000 (0 : ℚ))).2
      (by rw [wavByteLength, List.length_replicate]; norm_num)
      (by rw [wavByteLength, List.length_replicate]; norm_num)
      (is_mostly_silent_zeros 8000)

/-- C8: when the primary (ElevenLabs) engine raises during the session and
Whisper is available, `transcribe` resets the stop flag, reruns the whole
session once with Whisper, records Whisper as the engine used, and reports
success exactly when Whisper's run returns nonempty text — a Whisper
failure too is terminal (exactly one fallback run, no further retry). -/
theorem fallback_to_whisper (env : HybridEnv)
    (hk : env.elevenlabsKey = true)
    (hr : env.elevenlabsRun = .raises)
    (hw : env.whisperAvailable = true) :
    (hybrid_transcribe env).2.1 = some "whisper" ∧
    (hybrid_transcribe env).2.2 =
      [.resetStopFlag, .runElevenLabs, .resetStopFlag, .runWhisper] ∧
    (hybrid_transcribe env).1 =
      (match env.whisperRun with
        | .success t => decide (pyStrip t ≠ "")
        | .raises => false) := by
  cases henv : env.whisperRun <;>
    simp [hybrid_transcribe, hk, hr, hw, henv]

/-- Witness for C8: both engines fail — the fallback runs Whisper exactly
once, records it as the engine used, and the invocation reports failure. -/
theorem fallback_to_whisper_witness :
    (hybrid_transcribe
      { elevenlabsKey := true
        whisperAvailable := true
        elevenlabsRun := .raises
        whisperRun := .raises }).2.1 = some "whisper" ∧
    (hybrid_transcribe
      { elevenlabsKey := true
        whisperAvailable := true
        elevenlabsRun := .raises
        whisperRun := .raises }).2.2 =
      [.resetStopFlag, .runElevenLabs, .resetStopFlag, .runWhisper] ∧
    (hybrid_transcribe
      { elevenlabsKey := true
        whisperAvailable := true
        elevenlabsRun := .raises
        whisperRun := .raises }).1 = false := by
  have h := fallback_to_whisper
    { elevenlabsKey := true
      whisperAvailable := true
      elevenlabsRun := .raises
      whisperRun := .raises } rfl rfl rfl
  exact ⟨h.1, h.2.1, h.2.2⟩

/-- C9: over a session the progressive callback passes to the text injector
exactly the finalized phrase fragments that are nonempty after stripping,
each with exactly one trailing space appended, in chronological order; a
fragment that strips to empty is never passed to the injector. -/
theorem progressive_injection_discipline :
    (∀ phrases : List String,
      progressive_injections phrases =
        (phrases.filter (fun p => decide (pyStrip p ≠ ""))).map (fun p => p ++ " ")) ∧
    (∀ p : String, pyStrip p = "" → handle_transcription_result p = []) := by
  constructor
  · intro phrases
    induction phrases with
    | nil => rfl
    | cons p ps ih =>
      by_cases h : pyStrip p = ""
      · simp [progressive_injections, handle_transcription_result, h, ih]
      · simp [progressive_injections, handle_transcription_result, h, ih]
  · intro p h
    simp [handle_transcription_result, h]

/-- Witness for C9: the fragment `" "` strips to empty and is dropped; the
nonempty fragments are injected in order with one trailing space each. -/
theorem progressive_injection_discipline_witness :
    progressive_injections ["hello", " ", "world"] = ["hello ", "world "] ∧
    handle_transcription_result " " = [] := by
  constructor
  · rw [progressive_injection_discipline.1 ["hello", " ", "world"]]
    decide
  · exact progressive_injection_discipline.2 " " (by decide)

end RealtimeTranscript
